import Mathlib

/-!
Shallow embedding of `pyalarmdotcom/pyalarmdotcom.py` (class `Alarmdotcom`).

The driver (selenium + PhantomJS) is modelled as an environment that fixes, for
each wait the code performs, when (if ever) the awaited condition becomes true,
and which page titles / element reads the remote site produces.  Each method of
the class becomes a pure function of that environment; besides the source
method's result we record the list of UI actions the method performs, so that
claims about "no UI interaction" and about the order of clicks and waits are
statable.
-/

namespace Pyalarmdotcom

/-- Locator constants of the class `Alarmdotcom`, kept as lists of strings to
preserve the source's `len(btn) > 2` branching on tuple arity. -/
def LOGIN_URL : String :=
  "https://www.alarm.com/login?m=no_session&ReturnUrl=/web/Security/SystemSummary.aspx"

def LOGIN_USERNAME : List String :=
  ["name", "ctl00$ContentPlaceHolder1$loginform$txtUserName"]

def LOGIN_PASSWORD : List String := ["name", "txtPassword"]

def LOGIN_BUTTON : List String :=
  ["name", "ctl00$ContentPlaceHolder1$loginform$signInButton"]

def STATUS_IMG_ID : String := "ctl00_phBody_ArmingStateWidget_imgState"

def STATUS_IMG : List String := ["id", STATUS_IMG_ID]

def BTN_DISARM : List String := ["id", "ctl00_phBody_ArmingStateWidget_btnDisarm"]

def BTN_ARM_STAY : List String :=
  ["id", "ctl00_phBody_ArmingStateWidget_btnArmStay",
   "ctl00_phBody_ArmingStateWidget_btnArmOptionStay"]

def BTN_ARM_AWAY : List String :=
  ["id", "ctl00_phBody_ArmingStateWidget_btnArmAway",
   "ctl00_phBody_ArmingStateWidget_btnArmOptionAway"]

/-- Id of the refresh button clicked by the `state` property. -/
def REFRESH_BTN_ID : String := "ctl00_phBody_ArmingStateWidget_btnArmingRefresh"

/-- Id of the in-progress spinner awaited at the end of `_set_state`
(the literal used inline in the source, not the unused `STATUS_UPDATING`). -/
def SPINNER_ID : String := "ctl00_phBody_ArmingStateWidget_imgPopupSpinner"

/-- Default of the `timeout` parameter of `__init__` (`timeout=5`). -/
def INIT_DEFAULT_TIMEOUT : Nat := 5

/-- Default of the `timeout` parameter of `_set_state` (`timeout=10`). -/
def SET_STATE_DEFAULT_TIMEOUT : Nat := 10

/-- The exception kinds an `Alarmdotcom` method can signal: the four exception
classes the module defines, plus the driver-level exceptions that escape the
methods unhandled (selenium's `TimeoutException` from an uncaught
`WebDriverWait`, `NoSuchElementException` from `find_element`). -/
inductive AlarmError where
  | loginException (msg : String)
  | systemArmedError (msg : String)
  | systemDisarmedError (msg : String)
  | elementException (msg : String)
  | seleniumTimeout
  | noSuchElement
deriving DecidableEq, Repr

/-- Whether a result is a raised `ElementException`, the class the module
defines for "unable to locate an element on the page". -/
def failsWithElementException (r : Except AlarmError Unit) : Bool :=
  match r with
  | .error (.elementException _) => true
  | _ => false

/-- One observable interaction the code performs against the remote page. -/
inductive UIAction where
  | navigate (url : String)
  | waitVisible (locId : String)
  | waitPresent (locId : String)
  | waitInvisible (locId : String)
  | clickButton (locId : String)
  | readAttr (locId : String) (attrName : String)
  | loginCall
deriving DecidableEq, Repr

/-- Outcome of one `WebDriverWait(...).until(...)`. -/
inductive WaitOutcome where
  | found
  | timedOut
deriving DecidableEq, Repr

/-- `WebDriverWait(driver, deadline).until(cond)`: the environment says the
condition first holds at time `availableAt` (`none` = never); the wait
succeeds exactly when that time is within the deadline. -/
def waitUntil (deadline : Nat) (availableAt : Option Nat) : WaitOutcome :=
  match availableAt with
  | none => .timedOut
  | some k => if k ≤ deadline then .found else .timedOut

/-- Environment for one `_set_state` call: when the primary control becomes
visible, when the secondary control becomes visible, and when the in-progress
spinner disappears. -/
structure SetStateEnv where
  primaryVisibleAt : Option Nat
  secondaryVisibleAt : Option Nat
  spinnerGoneAt : Option Nat
deriving DecidableEq, Repr

/-- `_set_state(self, btn, timeout=10)`.  Waits (bounded by `self.timeout`)
for the primary control `btn[1]`, clicks it; if `len(btn) > 2`, waits (again
bounded by `self.timeout`) for the secondary control `btn[2]`, clicks it, and
then waits — bounded by the separate `timeout` parameter — for the spinner to
disappear, raising `ElementException` on timeout of that last wait.  The two
visibility waits are NOT wrapped in a try/except: their timeout propagates as
selenium's `TimeoutException`.  Returns the result together with the UI
actions performed. -/
def set_state (self_timeout : Nat) (btn : List String) (timeout : Nat)
    (env : SetStateEnv) : Except AlarmError Unit × List UIAction :=
  let loc1 := btn.getD 1 ""
  match waitUntil self_timeout env.primaryVisibleAt with
  | .timedOut => (.error .seleniumTimeout, [.waitVisible loc1])
  | .found =>
    let acts1 : List UIAction := [.waitVisible loc1, .clickButton loc1]
    if btn.length > 2 then
      let loc2 := btn.getD 2 ""
      match waitUntil self_timeout env.secondaryVisibleAt with
      | .timedOut => (.error .seleniumTimeout, acts1 ++ [.waitVisible loc2])
      | .found =>
        let acts2 := acts1 ++
          [.waitVisible loc2, .clickButton loc2, .waitInvisible SPINNER_ID]
        match waitUntil timeout env.spinnerGoneAt with
        | .timedOut =>
          (.error (.elementException
            "Timeout while trying to locate the secondary option."), acts2)
        | .found => (.ok (), acts2)
    else
      (.ok (), acts1)

/-- Outcome of one attempt of the `state` property's try-block: either the
wait for the refresh button raises one of the four caught transient
exceptions, or the refresh button is clicked and then the wait for / read of
the status image raises a transient exception, or the `alt` attribute is read
successfully. -/
inductive StateAttempt where
  | refreshFail
  | readFail
  | okRead (alt : String)
deriving DecidableEq, Repr

/-- Whether the attempt raised a caught transient exception. -/
def StateAttempt.isFail : StateAttempt → Bool
  | .refreshFail => true
  | .readFail => true
  | .okRead _ => false

/-- The `state` property.  Each list element is the outcome the driver
produces for one attempt of the try-block; on a caught transient exception the
code calls `self._login()` (its boolean result is ignored) and recurses into
`self.state`.  Returns the raw `alt` string of the first successful attempt
together with the number of `_login` (reconnect) calls made on the way;
`none` models the recursion never returning because every supplied attempt
failed. -/
def state_run : List StateAttempt → Option (String × Nat)
  | [] => none
  | .okRead alt :: _ => some (alt, 0)
  | .refreshFail :: rest => (state_run rest).map (fun p => (p.1, p.2 + 1))
  | .readFail :: rest => (state_run rest).map (fun p => (p.1, p.2 + 1))

/-- UI actions performed by one attempt of the `state` try-block. -/
def attemptActions : StateAttempt → List UIAction
  | .refreshFail => [.waitVisible REFRESH_BTN_ID, .loginCall]
  | .readFail =>
      [.waitVisible REFRESH_BTN_ID, .clickButton REFRESH_BTN_ID,
       .waitPresent STATUS_IMG_ID, .loginCall]
  | .okRead _ =>
      [.waitVisible REFRESH_BTN_ID, .clickButton REFRESH_BTN_ID,
       .waitPresent STATUS_IMG_ID, .readAttr STATUS_IMG_ID "alt"]

/-- UI actions performed by a whole `state` call: the actions of each failed
attempt (each ending in the `_login` call) followed by those of the first
successful attempt, at which the recursion stops. -/
def state_actions : List StateAttempt → List UIAction
  | [] => []
  | a :: rest =>
      attemptActions a ++ (match a with
        | .okRead _ => []
        | _ => state_actions rest)

/-- `disarm(self)`: reads `self.state` once; if it is not the string
"Disarmed", runs `_set_state(BTN_DISARM)` (with the default `timeout=10`),
otherwise raises `SystemDisarmedError`.  `none` models the status read never
returning. -/
def disarm (self_timeout : Nat) (tr : List StateAttempt) (env : SetStateEnv) :
    Option (Except AlarmError Unit × List UIAction) :=
  match state_run tr with
  | none => none
  | some (st, _) =>
    if st ≠ "Disarmed" then
      let r := set_state self_timeout BTN_DISARM SET_STATE_DEFAULT_TIMEOUT env
      some (r.1, state_actions tr ++ r.2)
    else
      some (.error (.systemDisarmedError "The system is already disarmed!"),
            state_actions tr)

/-- `arm_away(self)`: reads `self.state` once; if it is "Disarmed", runs
`_set_state(BTN_ARM_AWAY)`, otherwise raises `SystemArmedError`. -/
def arm_away (self_timeout : Nat) (tr : List StateAttempt) (env : SetStateEnv) :
    Option (Except AlarmError Unit × List UIAction) :=
  match state_run tr with
  | none => none
  | some (st, _) =>
    if st = "Disarmed" then
      let r := set_state self_timeout BTN_ARM_AWAY SET_STATE_DEFAULT_TIMEOUT env
      some (r.1, state_actions tr ++ r.2)
    else
      some (.error (.systemArmedError "The system is already armed!"),
            state_actions tr)

/-- `arm_stay(self)`: reads `self.state` once; if it is "Disarmed", runs
`_set_state(BTN_ARM_STAY)`, otherwise raises `SystemArmedError`. -/
def arm_stay (self_timeout : Nat) (tr : List StateAttempt) (env : SetStateEnv) :
    Option (Except AlarmError Unit × List UIAction) :=
  match state_run tr with
  | none => none
  | some (st, _) =>
    if st = "Disarmed" then
      let r := set_state self_timeout BTN_ARM_STAY SET_STATE_DEFAULT_TIMEOUT env
      some (r.1, state_actions tr ++ r.2)
    else
      some (.error (.systemArmedError "The system is already armed!"),
            state_actions tr)

/-- Environment for one `_login` call: the title of the page after navigating
to `LOGIN_URL`, whether the three login form elements can be found, and the
title of the page after submitting the form. -/
structure LoginEnv where
  initialTitle : String
  fieldsPresent : Bool
  postSubmitTitle : String
deriving DecidableEq, Repr

/-- `_login(self)`: navigates to the login URL; if the title is not
"Customer Login", logs and returns `False`; otherwise finds the three form
elements (`find_element` raises `NoSuchElementException` when one is absent),
submits the credentials, and returns whether the resulting title is
"Current System Status". -/
def login (env : LoginEnv) : Except AlarmError Bool :=
  if env.initialTitle = "Customer Login" then
    if env.fieldsPresent then
      .ok (env.postSubmitTitle == "Current System Status")
    else
      .error .noSuchElement
  else
    .ok false

/-- The constructed object: the fields `__init__` stores. -/
structure Alarmdotcom where
  username : String
  password : String
  timeout : Nat
deriving DecidableEq, Repr

/-- `__init__(self, username, password, timeout=5)`: stores the credentials
and timeout, then calls `self._login()` and raises
`LoginException('Unable to login to alarm.com')` when it returns `False`. -/
def init (username password : String) (timeout : Nat) (env : LoginEnv) :
    Except AlarmError Alarmdotcom :=
  match login env with
  | .error e => .error e
  | .ok true => .ok ⟨username, password, timeout⟩
  | .ok false => .error (.loginException "Unable to login to alarm.com")

/-! ### Helper lemmas -/

/-- `state_run` returns `(v, n)` exactly when attempt `n` read `v`
successfully and all earlier attempts raised a transient exception. -/
lemma state_run_some_iff (tr : List StateAttempt) (v : String) (n : Nat) :
    state_run tr = some (v, n) ↔
      tr.get? n = some (.okRead v) ∧ ∀ a ∈ tr.take n, a.isFail = true := by
  induction tr generalizing n with
  | nil => simp [state_run]
  | cons a rest ih =>
    cases a with
    | okRead alt =>
      cases n with
      | zero => simp [state_run]
      | succ m => simp [state_run, StateAttempt.isFail]
    | refreshFail =>
      cases n with
      | zero => simp [state_run]
      | succ m =>
        simp [state_run, Option.map_eq_some', StateAttempt.isFail, ih]
    | readFail =>
      cases n with
      | zero => simp [state_run]
      | succ m =>
        simp [state_run, Option.map_eq_some', StateAttempt.isFail, ih]

/-- If every supplied attempt fails, the `state` recursion never returns. -/
lemma state_run_none_of_all_fail (tr : List StateAttempt)
    (h : ∀ a ∈ tr, a.isFail = true) : state_run tr = none := by
  induction tr with
  | nil => rfl
  | cons a rest ih =>
    cases a with
    | okRead alt => exact absurd (h _ (List.mem_cons_self _ _)) (by simp [StateAttempt.isFail])
    | refreshFail =>
      simp [state_run, ih (fun x hx => h x (List.mem_cons_of_mem _ hx))]
    | readFail =>
      simp [state_run, ih (fun x hx => h x (List.mem_cons_of_mem _ hx))]

/-- A successful `state` call ends with the refresh-click / status-read
action block. -/
lemma state_actions_of_success (tr : List StateAttempt) (v : String) (n : Nat)
    (h : state_run tr = some (v, n)) :
    ∃ pre, state_actions tr = pre ++
      [.waitVisible REFRESH_BTN_ID, .clickButton REFRESH_BTN_ID,
       .waitPresent STATUS_IMG_ID, .readAttr STATUS_IMG_ID "alt"] := by
  induction tr generalizing n with
  | nil => simp [state_run] at h
  | cons a rest ih =>
    cases a with
    | okRead alt =>
      exact ⟨[], by simp [state_actions, attemptActions]⟩
    | refreshFail =>
      rw [state_run, Option.map_eq_some'] at h
      obtain ⟨p, hp, hv⟩ := h
      have hv1 : p.1 = v := congrArg Prod.fst hv
      subst hv1
      obtain ⟨pre, hpre⟩ := ih p.2 (by rw [hp])
      exact ⟨attemptActions .refreshFail ++ pre, by
        simp [state_actions, hpre]⟩
    | readFail =>
      rw [state_run, Option.map_eq_some'] at h
      obtain ⟨p, hp, hv⟩ := h
      have hv1 : p.1 = v := congrArg Prod.fst hv
      subst hv1
      obtain ⟨pre, hpre⟩ := ih p.2 (by rw [hp])
      exact ⟨attemptActions .readFail ++ pre, by
        simp [state_actions, hpre]⟩

/-! ### Claims -/

/-- C1 (counterexample): a status query whose first and second read attempts
both hit a transient failure does NOT fail after one reconnect: the code
reconnects a second time and, when the third attempt succeeds, returns its
value.  At the concrete attempt trace [fail, fail, ok "Disarmed"], `state`
returns "Disarmed" after 2 reconnects, contradicting "exactly one reconnect
... if the retry fails again it fails with StatusUnavailable without any
second reconnect or further attempt". -/
theorem c1_counterexample :
    state_run [.refreshFail, .refreshFail, .okRead "Disarmed"] =
      some ("Disarmed", 2) ∧ (2 : Nat) ≠ 1 :=
  ⟨rfl, by decide⟩

/-- C1 (amended): on each transient failure `state` performs one `_login`
(reconnect) call and retries, with no bound on the number of retries: it
returns the value of the first successful attempt together with one reconnect
per preceding failed attempt, and when every attempt fails it never returns.
No `StatusUnavailable` error exists in the code. -/
theorem c1_amended_unbounded_retry (tr : List StateAttempt) (v : String) (n : Nat) :
    (state_run tr = some (v, n) ↔
      tr.get? n = some (.okRead v) ∧ ∀ a ∈ tr.take n, a.isFail = true) ∧
    ((∀ a ∈ tr, a.isFail = true) → state_run tr = none) :=
  ⟨state_run_some_iff tr v n, state_run_none_of_all_fail tr⟩

/-- C1 (witness): the amended theorem evaluated at the concrete trace
[fail, ok "Armed Stay"]: one reconnect, then the read value is returned. -/
theorem c1_witness :
    state_run [.refreshFail, .okRead "Armed Stay"] = some ("Armed Stay", 1) :=
  (c1_amended_unbounded_retry [.refreshFail, .okRead "Armed Stay"]
    "Armed Stay" 1).1.mpr (by decide)

/-- C2 (counterexample): when the primary control never becomes visible, the
arm-stay sequence fails with selenium's uncaught `TimeoutException`, not with
the module's `ElementException` — contradicting "the operation fails with
ElementUnavailable". -/
theorem c2_counterexample :
    (set_state 5 BTN_ARM_STAY 10 ⟨none, none, none⟩).1 =
      .error .seleniumTimeout ∧
    failsWithElementException
      (set_state 5 BTN_ARM_STAY 10 ⟨none, none, none⟩).1 = false :=
  ⟨rfl, rfl⟩

/-- C2 (amended): if the primary control does not become interactable within
the configured timeout, or (when the locator defines a secondary control) the
secondary control does not, the operation fails — but with the driver's
`TimeoutException` propagating unhandled, not with `ElementException`;
`ElementException` is raised only by the completion wait. -/
theorem c2_amended_timeout_propagates (st t : Nat) (btn : List String)
    (env : SetStateEnv) :
    (waitUntil st env.primaryVisibleAt = .timedOut →
      (set_state st btn t env).1 = .error .seleniumTimeout) ∧
    (waitUntil st env.primaryVisibleAt = .found → btn.length > 2 →
      waitUntil st env.secondaryVisibleAt = .timedOut →
      (set_state st btn t env).1 = .error .seleniumTimeout) := by
  unfold set_state
  constructor
  · intro h; rw [h]
  · intro h1 h2 h3
    rw [h1]
    simp only [h2, if_pos, h3]

/-- C2 (witness): the amended theorem at a concrete environment where the
secondary control of the arm-away sequence never appears. -/
theorem c2_witness :
    (set_state 5 BTN_ARM_AWAY 10 ⟨some 0, none, none⟩).1 =
      .error .seleniumTimeout :=
  (c2_amended_timeout_propagates 5 10 BTN_ARM_AWAY ⟨some 0, none, none⟩).2
    (by decide) (by decide) (by decide)

/-- C3: when the freshly read state is "Disarmed", `disarm` raises
`SystemDisarmedError` and its UI actions are exactly those of the status read
itself — no click and no element wait is added. -/
theorem c3_disarm_already_disarmed (st_timeout : Nat) (tr : List StateAttempt)
    (env : SetStateEnv) (n : Nat)
    (h : state_run tr = some ("Disarmed", n)) :
    disarm st_timeout tr env =
      some (.error (.systemDisarmedError "The system is already disarmed!"),
            state_actions tr) := by
  unfold disarm
  rw [h]
  simp

/-- C3 (witness): `disarm` at a concrete trace whose single attempt reads
"Disarmed". -/
theorem c3_witness :
    disarm 5 [.okRead "Disarmed"] ⟨some 0, some 0, some 0⟩ =
      some (.error (.systemDisarmedError "The system is already disarmed!"),
            state_actions [.okRead "Disarmed"]) :=
  c3_disarm_already_disarmed 5 [.okRead "Disarmed"] ⟨some 0, some 0, some 0⟩ 0
    (by decide)

/-- C4: when the freshly read state is not "Disarmed", `arm_away` and
`arm_stay` raise `SystemArmedError` with no UI action beyond the status read;
when it is "Disarmed", they run the corresponding `_set_state` sequence — so
the arm sequence executes exactly when the state read immediately before it
is Disarmed. -/
theorem c4_arm_requires_disarmed (st_timeout : Nat) (tr : List StateAttempt)
    (env : SetStateEnv) (v : String) (n : Nat)
    (h : state_run tr = some (v, n)) :
    (v ≠ "Disarmed" →
      arm_away st_timeout tr env =
        some (.error (.systemArmedError "The system is already armed!"),
              state_actions tr) ∧
      arm_stay st_timeout tr env =
        some (.error (.systemArmedError "The system is already armed!"),
              state_actions tr)) ∧
    (v = "Disarmed" →
      arm_away st_timeout tr env =
        some ((set_state st_timeout BTN_ARM_AWAY SET_STATE_DEFAULT_TIMEOUT env).1,
              state_actions tr ++
                (set_state st_timeout BTN_ARM_AWAY SET_STATE_DEFAULT_TIMEOUT env).2) ∧
      arm_stay st_timeout tr env =
        some ((set_state st_timeout BTN_ARM_STAY SET_STATE_DEFAULT_TIMEOUT env).1,
              state_actions tr ++
                (set_state st_timeout BTN_ARM_STAY SET_STATE_DEFAULT_TIMEOUT env).2)) := by
  constructor
  · intro hv
    constructor <;> simp [arm_away, arm_stay, h, hv]
  · intro hv
    subst hv
    constructor <;> simp [arm_away, arm_stay, h]

/-- C4 (witness): `arm_away` at a concrete trace reading "Armed Stay" raises
`SystemArmedError` with no action beyond the status read. -/
theorem c4_witness :
    arm_away 5 [.okRead "Armed Stay"] ⟨some 0, some 0, some 0⟩ =
      some (.error (.systemArmedError "The system is already armed!"),
            state_actions [.okRead "Armed Stay"]) :=
  ((c4_arm_requires_disarmed 5 [.okRead "Armed Stay"] ⟨some 0, some 0, some 0⟩
      "Armed Stay" 0 (by decide)).1 (by decide)).1

/-- C5: `__init__` (the `connect` of the spec) raises
`LoginException` whenever the initial page title is not the expected login
page title, and whenever the post-submission page title is not the expected
authenticated landing title; it returns an object only when both title checks
pass. -/
theorem c5_connect_login_failure (u p : String) (t : Nat) (env : LoginEnv) :
    (env.initialTitle ≠ "Customer Login" →
      init u p t env = .error (.loginException "Unable to login to alarm.com")) ∧
    (env.fieldsPresent = true → env.postSubmitTitle ≠ "Current System Status" →
      init u p t env = .error (.loginException "Unable to login to alarm.com")) ∧
    (∀ c, init u p t env = .ok c →
      env.initialTitle = "Customer Login" ∧
      env.postSubmitTitle = "Current System Status") := by
  refine ⟨?_, ?_, ?_⟩
  · intro hne
    simp [init, login, hne]
  · intro hf hne
    by_cases hi : env.initialTitle = "Customer Login"
    · have hb : (env.postSubmitTitle == "Current System Status") = false := by
        simp [hne]
      simp [init, login, hi, hf, hb]
    · simp [init, login, hi]
  · intro c hc
    by_cases hi : env.initialTitle = "Customer Login"
    · by_cases hfp : env.fieldsPresent = true
      · by_cases hps : env.postSubmitTitle = "Current System Status"
        · exact ⟨hi, hps⟩
        · have hb : (env.postSubmitTitle == "Current System Status") = false := by
            simp [hps]
          simp [init, login, hi, hfp, hb] at hc
      · simp [init, login, hi, Bool.not_eq_true _ ▸ hfp] at hc
    · simp [init, login, hi] at hc

/-- C5 (witness): a concrete environment with a wrong post-submission title
(bad credentials) makes `__init__` raise `LoginException`. -/
theorem c5_witness :
    init "user" "pw" 5 ⟨"Customer Login", true, "Customer Login"⟩ =
      .error (.loginException "Unable to login to alarm.com") :=
  (c5_connect_login_failure "user" "pw" 5
      ⟨"Customer Login", true, "Customer Login"⟩).2.1 rfl (by decide)

/-- C6: when the primary control appears, the arm-stay and arm-away sequences
wait for (and, when it appears, click) the secondary confirmation control
defined at index 2 of their locators, while the disarm sequence — whose
locator defines no secondary element — only ever waits for or clicks its
primary control. -/
theorem c6_secondary_confirmation (st t : Nat) (env : SetStateEnv) :
    (waitUntil st env.primaryVisibleAt = .found →
      (UIAction.waitVisible (BTN_ARM_STAY.getD 2 "") ∈
          (set_state st BTN_ARM_STAY t env).2 ∧
       UIAction.waitVisible (BTN_ARM_AWAY.getD 2 "") ∈
          (set_state st BTN_ARM_AWAY t env).2) ∧
      (waitUntil st env.secondaryVisibleAt = .found →
        UIAction.clickButton (BTN_ARM_STAY.getD 2 "") ∈
            (set_state st BTN_ARM_STAY t env).2 ∧
        UIAction.clickButton (BTN_ARM_AWAY.getD 2 "") ∈
            (set_state st BTN_ARM_AWAY t env).2)) ∧
    (∀ l, UIAction.waitVisible l ∈ (set_state st BTN_DISARM t env).2 →
        l = BTN_DISARM.getD 1 "") ∧
    (∀ l, UIAction.clickButton l ∈ (set_state st BTN_DISARM t env).2 →
        l = BTN_DISARM.getD 1 "") := by
  refine ⟨?_, ?_, ?_⟩
  · intro hp
    cases hsec : waitUntil st env.secondaryVisibleAt with
    | timedOut =>
      refine ⟨⟨?_, ?_⟩, ?_⟩
      · simp [set_state, hp, hsec, BTN_ARM_STAY]
      · simp [set_state, hp, hsec, BTN_ARM_AWAY]
      · intro hs; exact WaitOutcome.noConfusion hs
    | found =>
      cases hspin : waitUntil t env.spinnerGoneAt with
      | timedOut =>
        refine ⟨⟨?_, ?_⟩, fun _ => ⟨?_, ?_⟩⟩
        · simp [set_state, hp, hsec, hspin, BTN_ARM_STAY]
        · simp [set_state, hp, hsec, hspin, BTN_ARM_AWAY]
        · simp [set_state, hp, hsec, hspin, BTN_ARM_STAY]
        · simp [set_state, hp, hsec, hspin, BTN_ARM_AWAY]
      | found =>
        refine ⟨⟨?_, ?_⟩, fun _ => ⟨?_, ?_⟩⟩
        · simp [set_state, hp, hsec, hspin, BTN_ARM_STAY]
        · simp [set_state, hp, hsec, hspin, BTN_ARM_AWAY]
        · simp [set_state, hp, hsec, hspin, BTN_ARM_STAY]
        · simp [set_state, hp, hsec, hspin, BTN_ARM_AWAY]
  · intro l hl
    cases hp : waitUntil st env.primaryVisibleAt with
    | timedOut =>
      simp [set_state, hp, BTN_DISARM] at hl
      simp [hl, BTN_DISARM]
    | found =>
      simp [set_state, hp, BTN_DISARM] at hl
      simp [hl, BTN_DISARM]
  · intro l hl
    cases hp : waitUntil st env.primaryVisibleAt with
    | timedOut =>
      simp [set_state, hp, BTN_DISARM] at hl
    | found =>
      simp [set_state, hp, BTN_DISARM] at hl
      simp [hl, BTN_DISARM]

/-- C6 (witness): with all controls available, the arm-stay sequence clicks
its secondary confirmation control. -/
theorem c6_witness :
    UIAction.clickButton (BTN_ARM_STAY.getD 2 "") ∈
      (set_state 5 BTN_ARM_STAY 10 ⟨some 0, some 0, some 0⟩).2 :=
  (((c6_secondary_confirmation 5 10 ⟨some 0, some 0, some 0⟩).1
      (by decide)).2 (by decide)).1

/-- C7: whenever `state` returns a value, the action trace of that very call
ends with the refresh-button wait and click followed by the status-image wait
and `alt`-attribute read, and the returned value is the one read by that
final attempt — no value from a previous call is returned. -/
theorem c7_refresh_before_return (tr : List StateAttempt) (v : String) (n : Nat)
    (h : state_run tr = some (v, n)) :
    (∃ pre, state_actions tr = pre ++
      [.waitVisible REFRESH_BTN_ID, .clickButton REFRESH_BTN_ID,
       .waitPresent STATUS_IMG_ID, .readAttr STATUS_IMG_ID "alt"]) ∧
    tr.get? n = some (.okRead v) :=
  ⟨state_actions_of_success tr v n h, ((state_run_some_iff tr v n).1 h).1⟩

/-- C7 (witness): the theorem at a concrete one-attempt trace. -/
theorem c7_witness :
    (∃ pre, state_actions [StateAttempt.okRead "Disarmed"] = pre ++
      [.waitVisible REFRESH_BTN_ID, .clickButton REFRESH_BTN_ID,
       .waitPresent STATUS_IMG_ID, .readAttr STATUS_IMG_ID "alt"]) ∧
    [StateAttempt.okRead "Disarmed"].get? 0 =
      some (.okRead "Disarmed") :=
  c7_refresh_before_return [.okRead "Disarmed"] "Disarmed" 0 (by decide)

/-- C8: once the primary and secondary controls of an arm sequence have been
clicked, `_set_state` waits for the in-progress spinner to disappear, bounded
by its own `timeout` parameter (default 10, larger than the constructor's
default wait timeout 5, and separate from it); the wait is the last action,
placed right after the secondary click, and its timeout raises
`ElementException` while its success completes the operation. -/
theorem c8_completion_wait (st t : Nat) (env : SetStateEnv) (btn : List String)
    (hbtn : btn = BTN_ARM_STAY ∨ btn = BTN_ARM_AWAY)
    (hp : waitUntil st env.primaryVisibleAt = .found)
    (hs : waitUntil st env.secondaryVisibleAt = .found) :
    INIT_DEFAULT_TIMEOUT < SET_STATE_DEFAULT_TIMEOUT ∧
    (set_state st btn t env).2 =
      [.waitVisible (btn.getD 1 ""), .clickButton (btn.getD 1 ""),
       .waitVisible (btn.getD 2 ""), .clickButton (btn.getD 2 ""),
       .waitInvisible SPINNER_ID] ∧
    (waitUntil t env.spinnerGoneAt = .timedOut →
      (set_state st btn t env).1 =
        .error (.elementException
          "Timeout while trying to locate the secondary option.")) ∧
    (waitUntil t env.spinnerGoneAt = .found →
      (set_state st btn t env).1 = .ok ()) := by
  obtain hb | hb := hbtn <;> subst hb <;>
    refine ⟨by decide, ?_, ?_, ?_⟩ <;>
    cases hspin : waitUntil t env.spinnerGoneAt <;>
      simp [set_state, hp, hs, hspin, BTN_ARM_STAY, BTN_ARM_AWAY]

/-- C8 (witness): with both controls available and a spinner that never
disappears, the arm-away sequence raises `ElementException`. -/
theorem c8_witness :
    (set_state 5 BTN_ARM_AWAY 10 ⟨some 0, some 0, none⟩).1 =
      .error (.elementException
        "Timeout while trying to locate the secondary option.") :=
  (c8_completion_wait 5 10 ⟨some 0, some 0, none⟩ BTN_ARM_AWAY (Or.inr rfl)
      (by decide) (by decide)).2.2.1 (by decide)

/-- The enumeration of AlarmState values stated by the spec, written from the
spec's words for comparison with the value the code actually returns. -/
def spec_AlarmState_values : List String :=
  ["Disarmed", "ArmedStay", "ArmedAway", "Unknown"]

/-- C9 (counterexample): `state` returns the raw `alt` attribute string with
no parsing or validation, so a successful status query can return a value —
here the string "Armed Stay" the site actually uses — outside the enumerated
set {Disarmed, ArmedStay, ArmedAway, Unknown}. -/
theorem c9_counterexample :
    state_run [.okRead "Armed Stay"] = some ("Armed Stay", 0) ∧
    "Armed Stay" ∉ spec_AlarmState_values :=
  ⟨rfl, by decide⟩

/-- C9 (amended): every value successfully returned by the status query is
exactly the raw `alt` string read from the status image by the final attempt,
unvalidated — any string the remote UI reports is returned as-is. -/
theorem c9_amended_raw_alt (tr : List StateAttempt) (v : String) (n : Nat)
    (h : state_run tr = some (v, n)) :
    tr.get? n = some (.okRead v) ∧
    ∀ s : String, state_run [.okRead s] = some (s, 0) :=
  ⟨((state_run_some_iff tr v n).1 h).1, fun _ => rfl⟩

/-- C9 (witness): the amended theorem at a concrete trace. -/
theorem c9_witness :
    [StateAttempt.okRead "Armed Stay"].get? 0 =
      some (.okRead "Armed Stay") ∧
    ∀ s : String, state_run [.okRead s] = some (s, 0) :=
  c9_amended_raw_alt [.okRead "Armed Stay"] "Armed Stay" 0 (by decide)

/-- C10: `__init__` performs the login eagerly: it returns an object only
when `_login` returned `True`, and raises `LoginException` whenever `_login`
returned `False` — so no constructed-but-unauthenticated object is observable. -/
theorem c10_ctor_implies_authenticated (u p : String) (t : Nat)
    (env : LoginEnv) :
    (∀ c, init u p t env = .ok c → login env = .ok true) ∧
    (login env = .ok false →
      init u p t env = .error (.loginException "Unable to login to alarm.com")) := by
  constructor
  · intro c hc
    unfold init at hc
    cases hl : login env with
    | error e => rw [hl] at hc; exact Except.noConfusion hc
    | ok b =>
      cases b with
      | true => rfl
      | false => rw [hl] at hc; exact Except.noConfusion hc
  · intro hl
    unfold init
    rw [hl]

/-- C10 (witness): a failed login (wrong login-page title) makes the
constructor raise `LoginException`. -/
theorem c10_witness :
    init "user" "pw" 5 ⟨"Bad Title", true, "Current System Status"⟩ =
      .error (.loginException "Unable to login to alarm.com") :=
  (c10_ctor_implies_authenticated "user" "pw" 5
      ⟨"Bad Title", true, "Current System Status"⟩).2 rfl

end Pyalarmdotcom
